import Mathlib

/-!
Verification of the San Jose fire-incident dashboard (`app.py`).

The script is a linear Streamlit pipeline: load credentials, load a
warehouse table, filter it by two multiselects (incident category and
month bucket), render a bar chart and a line chart, compute the top-5
streets by incident count, geocode them, render a map, and embed four
Looker report frames.

The shallow embedding below models:
  * a warehouse row by the three columns the script reads
    (`Final_Incident_Category`, the derived `Month` bucket rendered as a
    string, and `Street_Name`); other columns are passed through
    unchanged by the script and never inspected, so they are omitted;
  * a pandas table by a `List Row` (rows in warehouse order);
  * `pd.Series.value_counts` by counting each distinct value (first-seen
    order) and stably sorting descending by count;
  * the geocoding client by a function from the request address to an
    outcome (a candidate list, or a raised exception);
  * the Streamlit page by the list of items rendered before the script
    stops (`st.stop` and uncaught errors truncate the list).
-/

/-- One warehouse row as the script sees it: the incident category
(`Final_Incident_Category`), the derived month bucket (`Month`,
compared as a string such as "2024-01"), and the street name
(`Street_Name`). -/
structure Row where
  category : String
  month : String
  street : String
deriving DecidableEq, Repr

/-- Model of `pandas.Series.unique`: the distinct values of a column in
first-seen order (later duplicates are filtered out). -/
def uniques : List String → List String
  | [] => []
  | x :: xs => x :: (uniques xs).filter fun y => y != x

theorem mem_uniques (a : String) : ∀ l : List String, a ∈ uniques l ↔ a ∈ l
  | [] => by simp [uniques]
  | x :: xs => by
    by_cases hax : a = x
    · subst hax; simp [uniques]
    · simp [uniques, List.mem_filter, hax, mem_uniques a xs]

/-- Model of `df_filtered` (app.py lines 57-60): keep the rows whose
`Final_Incident_Category` is in the selected category list and whose
`Month` (as a string) is in the selected month list. -/
def filterTable (df : List Row) (category_filter month_filter : List String) : List Row :=
  df.filter fun r => category_filter.contains r.category && month_filter.contains r.month

/-- C1: For every full table and every pair of selections, the
filtered table holds exactly the rows whose category is in the selected
category set and whose month bucket is in the selected month set: a row
is a member of the filtered table iff it is a member of the full table
and satisfies both membership predicates, and each such row keeps its
exact multiplicity (no other row appears, no matching row is omitted). -/
theorem claim_C1_filter_exact (df : List Row) (cats months : List String) (r : Row) :
    (r ∈ filterTable df cats months ↔ r ∈ df ∧ r.category ∈ cats ∧ r.month ∈ months) ∧
    (filterTable df cats months).count r =
      (if r.category ∈ cats ∧ r.month ∈ months then df.count r else 0) := by
  refine ⟨by simp [filterTable, List.mem_filter, and_assoc], ?_⟩
  by_cases hr : r.category ∈ cats ∧ r.month ∈ months
  · rw [if_pos hr, filterTable, List.count_filter (by simp [hr.1, hr.2])]
  · rw [if_neg hr, List.count_eq_zero]
    intro hmem
    apply hr
    have h2 := (List.mem_filter.mp hmem).2
    simpa using h2

/-- The comparison used by `value_counts`: record `a` comes before
record `b` when `a`'s count is at least `b`'s (descending order). -/
def countGE (a b : String × Nat) : Prop := b.2 ≤ a.2

instance : DecidableRel countGE := fun a b => inferInstanceAs (Decidable (b.2 ≤ a.2))

instance : IsTotal (String × Nat) countGE :=
  ⟨fun a b => (Nat.le_total a.2 b.2).symm⟩

instance : IsTrans (String × Nat) countGE :=
  ⟨fun _ _ _ h₁ h₂ => Nat.le_trans h₂ h₁⟩

/-- Model of `pd.Series.value_counts()`: one (value, count) pair per distinct
value of the column, sorted descending by count (stable sort, so ties
keep the first-seen order of values). -/
def value_counts (l : List String) : List (String × Nat) :=
  List.insertionSort countGE ((uniques l).map fun v => (v, l.count v))

/-- Model of `top_streets` (app.py line 93):
`df_filtered['Street_Name'].value_counts().head(5).index.tolist()` —
the names of the at-most-5 most frequent streets. -/
def top_streets (df_filtered : List Row) : List String :=
  ((value_counts (df_filtered.map Row.street)).take 5).map Prod.fst

/-- The `Incident_Count` column (app.py line 117):
`df_filtered['Street_Name'].value_counts().head(5).values`. -/
def top_street_counts (df_filtered : List Row) : List Nat :=
  ((value_counts (df_filtered.map Row.street)).take 5).map Prod.snd

/-- Model of `df_top_streets` before geocoding (app.py lines 115-118): the
`Street_Name` column zipped with the `Incident_Count` column. -/
def df_top_streets (df_filtered : List Row) : List (String × Nat) :=
  (top_streets df_filtered).zip (top_street_counts df_filtered)

theorem map_fst_zip_map_snd {α β : Type} :
    ∀ l : List (α × β), (l.map Prod.fst).zip (l.map Prod.snd) = l
  | [] => rfl
  | x :: xs => by simp [map_fst_zip_map_snd xs]

theorem df_top_streets_eq (f : List Row) :
    df_top_streets f = (value_counts (f.map Row.street)).take 5 := by
  rw [df_top_streets, top_streets, top_street_counts]
  exact map_fst_zip_map_snd _

/-- C3: For every filtered table, the top-street aggregate built
before geocoding has at most 5 records, and consecutive records are in
descending order of incident count. -/
theorem claim_C3_top5_sorted_desc (f : List Row) :
    (df_top_streets f).length ≤ 5 ∧
    List.Pairwise (fun a b : String × Nat => b.2 ≤ a.2) (df_top_streets f) := by
  rw [df_top_streets_eq]
  refine ⟨List.length_take_le 5 _, ?_⟩
  have hs : List.Pairwise countGE
      (List.insertionSort countGE
        ((uniques (f.map Row.street)).map fun v => (v, (f.map Row.street).count v))) :=
    List.sorted_insertionSort countGE _
  exact List.Pairwise.sublist (List.take_sublist 5 _) hs

/-- C8: The top-5 street computation is deterministic and
idempotent: two runs on the same filtered view return the same list of
at most 5 street names in the same order.  (The embedding is a pure
function of the filtered view, so equal inputs give equal outputs.) -/
theorem claim_C8_top5_deterministic (v₁ v₂ : List Row) (h : v₁ = v₂) :
    top_streets v₁ = top_streets v₂ ∧ (top_streets v₁).length ≤ 5 := by
  subst h
  refine ⟨rfl, ?_⟩
  calc (top_streets v₁).length
      = ((value_counts (v₁.map Row.street)).take 5).length := by simp [top_streets]
    _ ≤ 5 := List.length_take_le 5 _

theorem claim_C8_top5_deterministic_witness :
    top_streets [⟨"Fire", "2024-01", "First St"⟩] = top_streets [⟨"Fire", "2024-01", "First St"⟩] ∧
    (top_streets [⟨"Fire", "2024-01", "First St"⟩]).length ≤ 5 :=
  claim_C8_top5_deterministic [⟨"Fire", "2024-01", "First St"⟩] [⟨"Fire", "2024-01", "First St"⟩] rfl

/-- C9: The filter is monotone in both selections: enlarging either
selection can only add rows (the smaller filtered view is a sublist,
hence a sub-multiset, of the larger one), and selecting every observed
distinct category and month returns the full table unchanged. -/
theorem claim_C9_filter_monotone (df : List Row) (c₁ c₂ m₁ m₂ : List String)
    (hc : c₁ ⊆ c₂) (hm : m₁ ⊆ m₂) :
    (filterTable df c₁ m₁).Sublist (filterTable df c₂ m₂) ∧
    filterTable df (uniques (df.map Row.category)) (uniques (df.map Row.month)) = df := by
  constructor
  · apply List.monotone_filter_right
    intro r hr
    simp only [Bool.and_eq_true] at hr
    have h₁ : r.category ∈ c₁ := by simpa using hr.1
    have h₂ : r.month ∈ m₁ := by simpa using hr.2
    simp
    exact ⟨hc h₁, hm h₂⟩
  · rw [filterTable, List.filter_eq_self]
    intro r hrdf
    simp [mem_uniques]
    exact ⟨⟨r, hrdf, rfl⟩, ⟨r, hrdf, rfl⟩⟩

theorem claim_C9_filter_monotone_witness :
    (filterTable [⟨"Fire", "2024-01", "First St"⟩] [] ["2024-01"]).Sublist
      (filterTable [⟨"Fire", "2024-01", "First St"⟩] ["Fire"] ["2024-01"]) ∧
    filterTable [⟨"Fire", "2024-01", "First St"⟩]
        (uniques ([⟨"Fire", "2024-01", "First St"⟩].map Row.category))
        (uniques ([⟨"Fire", "2024-01", "First St"⟩].map Row.month)) =
      [⟨"Fire", "2024-01", "First St"⟩] :=
  claim_C9_filter_monotone [⟨"Fire", "2024-01", "First St"⟩] [] ["Fire"] ["2024-01"] ["2024-01"]
    (List.nil_subset _) (List.Subset.refl _)

/-- A geocoding candidate's coordinate pair
(`geocode_result[0]['geometry']['location']`). -/
structure GeoLocation where
  lat : Rat
  lng : Rat
deriving DecidableEq, Repr

/-- Outcome of one call to the external geocoding client: an ordered
candidate list (possibly empty), or a raised exception. -/
inductive GeocodeResult where
  | ok (candidates : List GeoLocation)
  | raises (msg : String)
deriving DecidableEq, Repr

/-- The geocoding client (`gmaps`), as a function from the request
address string to the outcome of the call. -/
abbrev Geocoder := String → GeocodeResult

/-- Model of `get_lat_lon` (app.py lines 104-113).  The first component is the
returned pair: the first candidate's coordinates when the call
succeeds with a non-empty list, and the `(None, None)` sentinel when
the candidate list is empty or the call raises (the `except` branch).
The second component records the geocoding requests issued by the
call: the body issues exactly one, with the address f-string
`"{street_name}, {city}, {state}"` of line 106. -/
def get_lat_lon (gmaps : Geocoder) (street_name city state : String) :
    (Option Rat × Option Rat) × List String :=
  let addr := street_name ++ ", " ++ city ++ ", " ++ state
  let coords : Option Rat × Option Rat :=
    match gmaps addr with
    | GeocodeResult.ok (loc :: _) => (some loc.lat, some loc.lng)
    | GeocodeResult.ok [] => (none, none)
    | GeocodeResult.raises _ => (none, none)
  (coords, [addr])

/-- One row of `df_top_streets` after the `Latitude` / `Longitude`
columns are added (app.py lines 119-121). -/
structure TopStreetRow where
  street : String
  count : Nat
  lat : Option Rat
  lng : Option Rat
deriving DecidableEq, Repr

/-- App.py lines 119-121: apply `get_lat_lon` to every street of
`df_top_streets` (with the call-site defaults `city="San Jose"`,
`state="CA"`), adding the `Latitude` and `Longitude` columns.  The
second component collects the geocoding requests issued. -/
def enrich (gmaps : Geocoder) (df_filtered : List Row) :
    List TopStreetRow × List String :=
  ((df_top_streets df_filtered).map fun p =>
      { street := p.1, count := p.2,
        lat := ((get_lat_lon gmaps p.1 "San Jose" "CA").1).1,
        lng := ((get_lat_lon gmaps p.1 "San Jose" "CA").1).2 },
   ((df_top_streets df_filtered).map fun p => (get_lat_lon gmaps p.1 "San Jose" "CA").2).flatten)

/-- Model of `df_top_streets.dropna()` (app.py line 122): drop every row with a
missing value; only `Latitude` and `Longitude` can be missing. -/
def df_top_streets_final (gmaps : Geocoder) (df_filtered : List Row) : List TopStreetRow :=
  (enrich gmaps df_filtered).1.filter fun r => r.lat.isSome && r.lng.isSome

/-- C10: `get_lat_lon` is total: for every street and every
behaviour of the external geocoding call (candidates, empty list, or a
raised exception) it returns either a full coordinate pair or exactly
the sentinel `(None, None)` — never an exception, never half a pair. -/
theorem claim_C10_get_lat_lon_total (gmaps : Geocoder) (street city state : String) :
    ((get_lat_lon gmaps street city state).1.1.isSome = true ∧
      (get_lat_lon gmaps street city state).1.2.isSome = true) ∨
    (get_lat_lon gmaps street city state).1 = (none, none) := by
  cases h : gmaps (street ++ ", " ++ city ++ ", " ++ state) with
  | ok cands =>
    cases cands with
    | nil => right; simp [get_lat_lon, h]
    | cons c cs => left; constructor <;> simp [get_lat_lon, h]
  | raises m => right; simp [get_lat_lon, h]

/-- C4: Every record of the final top-street table carries both a
latitude and a longitude: a street whose lookup fails is dropped
entirely by `dropna`, and no surviving record has exactly one of the
two coordinates. -/
theorem claim_C4_full_pair_or_dropped (gmaps : Geocoder) (f : List Row)
    (rec : TopStreetRow) (h : rec ∈ df_top_streets_final gmaps f) :
    rec.lat.isSome = true ∧ rec.lng.isSome = true := by
  have h2 := (List.mem_filter.mp h).2
  simpa using h2

theorem flatten_map_singleton {α β : Type} (g : α → β) :
    ∀ l : List α, (l.map fun a => [g a]).flatten = l.map g
  | [] => rfl
  | x :: xs => by simp [flatten_map_singleton g xs]

theorem mkAddr_eq (s : String) :
    s ++ ", " ++ "San Jose" ++ ", " ++ "CA" = s ++ ", San Jose, CA" := by
  rw [String.append_assoc, String.append_assoc, String.append_assoc]
  rfl

theorem enrich_trace (gmaps : Geocoder) (f : List Row) :
    (enrich gmaps f).2 =
      (df_top_streets f).map fun p => p.1 ++ ", " ++ "San Jose" ++ ", " ++ "CA" := by
  rw [enrich]
  exact flatten_map_singleton _ _

theorem df_top_streets_fst (f : List Row) :
    (df_top_streets f).map Prod.fst = top_streets f := by
  rw [df_top_streets]
  apply List.map_fst_zip
  simp [top_streets, top_street_counts]

/-- C5: For each of the top street names exactly one geocoding
request is issued, with the address "<street>, San Jose, CA": the
request trace of the enrichment is one address per top street name, in
order; a single `get_lat_lon` call issues exactly one request; and
when the call returns a non-empty candidate list the coordinates used
are the first candidate's. -/
theorem claim_C5_one_request_first_candidate (gmaps : Geocoder) (f : List Row) (s : String) :
    (enrich gmaps f).2 = (top_streets f).map (fun t => t ++ ", San Jose, CA") ∧
    (get_lat_lon gmaps s "San Jose" "CA").2 = [s ++ ", San Jose, CA"] ∧
    (∀ loc rest, gmaps (s ++ ", San Jose, CA") = GeocodeResult.ok (loc :: rest) →
      (get_lat_lon gmaps s "San Jose" "CA").1 = (some loc.lat, some loc.lng)) := by
  refine ⟨?_, ?_, ?_⟩
  · rw [enrich_trace, ← df_top_streets_fst, List.map_map]
    apply List.map_congr_left
    intro p _
    exact mkAddr_eq p.1
  · simp only [get_lat_lon]
    rw [mkAddr_eq]
  · intro loc rest h
    simp only [get_lat_lon, mkAddr_eq, h]

/-- A geocoding client stub that returns one fixed candidate for every
address, used to instantiate theorems at concrete inputs. -/
def geoAlways : Geocoder := fun _ => GeocodeResult.ok [⟨37, -121⟩]

theorem claim_C5_one_request_first_candidate_witness :
    (enrich geoAlways [⟨"Fire", "2024-01", "First St"⟩]).2 =
      (top_streets [⟨"Fire", "2024-01", "First St"⟩]).map (fun t => t ++ ", San Jose, CA") ∧
    (get_lat_lon geoAlways "First St" "San Jose" "CA").1 = (some 37, some (-121)) :=
  ⟨(claim_C5_one_request_first_candidate geoAlways [⟨"Fire", "2024-01", "First St"⟩] "First St").1,
   (claim_C5_one_request_first_candidate geoAlways [⟨"Fire", "2024-01", "First St"⟩] "First St").2.2
     ⟨37, -121⟩ [] rfl⟩

theorem claim_C4_full_pair_or_dropped_witness :
    (⟨"First St", 1, some 37, some (-121)⟩ : TopStreetRow).lat.isSome = true ∧
    (⟨"First St", 1, some 37, some (-121)⟩ : TopStreetRow).lng.isSome = true :=
  claim_C4_full_pair_or_dropped geoAlways [⟨"Fire", "2024-01", "First St"⟩]
    ⟨"First St", 1, some 37, some (-121)⟩ (by decide)

/-- The key order used by `groupby('Month')`: ascending month bucket,
which on "YYYY-MM" buckets is chronological. -/
def monthLE (a b : String × Nat) : Prop := a.1 ≤ b.1

instance : DecidableRel monthLE := fun a b => inferInstanceAs (Decidable (a.1 ≤ b.1))

instance : IsTotal (String × Nat) monthLE := ⟨fun a b => le_total a.1 b.1⟩

instance : IsTrans (String × Nat) monthLE := ⟨fun _ _ _ h₁ h₂ => le_trans h₁ h₂⟩

/-- The bar chart's data (app.py lines 71-77): `sns.countplot` over the
filtered `Final_Incident_Category` column with bar order
`value_counts().index` — one (category, count) bar per distinct
observed category, descending by count. -/
def bar_chart_data (df_filtered : List Row) : List (String × Nat) :=
  value_counts (df_filtered.map Row.category)

/-- The line chart's data (app.py line 84):
`df_filtered.groupby('Month').size()` — one (month, count) point per
observed month bucket, with keys sorted ascending by `groupby`. -/
def line_chart_data (df_filtered : List Row) : List (String × Nat) :=
  List.insertionSort monthLE
    ((uniques (df_filtered.map Row.month)).map fun m => (m, (df_filtered.map Row.month).count m))

/-- C6: With an empty filtered table — in particular the one an
empty filter selection produces — both chart renderers yield a valid
chart artifact with no bars and no points; both renderers are total
functions of the filtered table, so no exception is raised. -/
theorem claim_C6_empty_charts (df : List Row) (cats months : List String) :
    bar_chart_data [] = [] ∧ line_chart_data [] = [] ∧
    bar_chart_data (filterTable df [] months) = [] ∧
    line_chart_data (filterTable df cats []) = [] := by
  have hb : filterTable df [] months = [] := by
    rw [filterTable, List.filter_eq_nil_iff]
    intro r _
    simp
  have hl : filterTable df cats [] = [] := by
    rw [filterTable, List.filter_eq_nil_iff]
    intro r _
    simp
  exact ⟨rfl, rfl, by rw [hb]; rfl, by rw [hl]; rfl⟩

/-- One folium marker (app.py lines 128-132): the row's coordinate
columns, the popup f-string of line 130, and the fixed red icon. -/
structure Marker where
  location : Option Rat × Option Rat
  popup : String
  iconColor : String
deriving DecidableEq, Repr

/-- The folium map object. -/
structure FoliumMap where
  center : Rat × Rat
  zoomStart : Nat
  markers : List Marker
deriving DecidableEq, Repr

/-- Model of `city_map` (app.py lines 126-133): a map centered on the fixed San
Jose coordinate `[37.3382, -121.8863]` with `zoom_start=12`, holding
one marker per row of the final top-street table. -/
def city_map (rows : List TopStreetRow) : FoliumMap :=
  { center := (37.3382, -121.8863),
    zoomStart := 12,
    markers := rows.map fun row =>
      { location := (row.lat, row.lng),
        popup := "Street: " ++ row.street ++ " - " ++ toString row.count ++ " Incidents",
        iconColor := "red" } }

/-- C7: For every input list of resolved street records the map
renderer yields a map centered at the fixed city coordinate with the
fixed zoom, one marker per input record (in order) whose popup text is
"Street: <name> - <count> Incidents" and whose style is the fixed red
icon; with zero records it yields a valid map with zero markers (the
renderer is total, so no exception). -/
theorem claim_C7_map_renderer (rows : List TopStreetRow) :
    (city_map rows).center = (37.3382, -121.8863) ∧
    (city_map rows).zoomStart = 12 ∧
    (city_map rows).markers.length = rows.length ∧
    (∀ m ∈ (city_map rows).markers, m.iconColor = "red") ∧
    (city_map rows).markers.map Marker.popup =
      rows.map (fun r => "Street: " ++ r.street ++ " - " ++ toString r.count ++ " Incidents") ∧
    (city_map []).markers = [] := by
  refine ⟨rfl, rfl, by simp [city_map], ?_, by simp [city_map], rfl⟩
  intro m hm
  simp only [city_map, List.mem_map] at hm
  obtain ⟨r, _, rfl⟩ := hm
  rfl

theorem claim_C7_map_renderer_witness :
    (city_map [⟨"First St", 3, some 37, some (-121)⟩]).center = (37.3382, -121.8863) ∧
    (city_map [⟨"First St", 3, some 37, some (-121)⟩]).markers.length = 1 ∧
    (⟨((some 37 : Option Rat), (some (-121) : Option Rat)),
        "Street: First St - 3 Incidents", "red"⟩ : Marker).iconColor = "red" ∧
    (city_map []).markers = [] :=
  ⟨(claim_C7_map_renderer [⟨"First St", 3, some 37, some (-121)⟩]).1,
   (claim_C7_map_renderer [⟨"First St", 3, some 37, some (-121)⟩]).2.2.1,
   (claim_C7_map_renderer [⟨"First St", 3, some 37, some (-121)⟩]).2.2.2.1 _ (by decide),
   (claim_C7_map_renderer [⟨"First St", 3, some 37, some (-121)⟩]).2.2.2.2.2⟩

/-- One item rendered on the Streamlit page, in render order. -/
inductive RenderItem where
  | sidebarHeader (t : String)
  | errorMsg (m : String)
  | title (t : String)
  | subheader (t : String)
  | barChart (d : List (String × Nat))
  | lineChart (d : List (String × Nat))
  | foliumMap (m : FoliumMap)
  | markdown (t : String)
  | iframe (url : String) (w h : Nat)
deriving DecidableEq, Repr

/-- The two credential groups read from `st.secrets`.  The
service-account field stands for the whole `try` block of app.py lines
15-22 (secrets lookup, credential parsing, BigQuery client
construction): `Except.error e` is any exception raised there.  The
API key is `none` when `st.secrets["google_maps"]["api_key"]` raises
`KeyError` (app.py lines 96-100). -/
structure Secrets where
  gcp_service_account : Except String Unit
  google_maps_api_key : Option String

/-- The four hardcoded Looker Studio report entries (app.py 140-145). -/
def looker_reports : List (String × String) :=
  [("Most Common Fire Incident Categories",
    "https://lookerstudio.google.com/embed/reporting/df0ea516-d86d-4e9d-a762-dc37703c2a70/page/Dqv4E"),
   ("Fire Incidents Over Time",
    "https://lookerstudio.google.com/embed/reporting/e6348672-9e65-4ceb-ac35-01ebe375dc3d/page/BBx4E"),
   ("Street Areas with High Incidents",
    "https://lookerstudio.google.com/embed/reporting/64bb961b-b8dd-4006-bba7-374c60612e97/page/2by4E"),
   ("Incidents Locations on Map",
    "https://lookerstudio.google.com/embed/reporting/c7a8737e-7b0f-4b03-818c-7e1b3319bbe6/page/Qpx4E")]

/-- The whole script, top to bottom, as the list of items it renders.
Inputs: the two secrets groups, the warehouse table (the fixed query's
result, with the month bucket already derived), the two user
selections, and the geocoding client.  `st.stop` (app.py lines 25 and
100) truncates the render list at the error message. -/
def runApp (secrets : Secrets) (warehouse : List Row)
    (category_filter month_filter : List String) (gmaps : Geocoder) : List RenderItem :=
  match secrets.gcp_service_account with
  | Except.error e =>
    [RenderItem.errorMsg ("❌ Error loading Google Cloud credentials: " ++ e)]
  | Except.ok _ =>
    let df_filtered := filterTable warehouse category_filter month_filter
    [RenderItem.sidebarHeader "Filters",
     RenderItem.title "San Jose Fire Incidents (2024)",
     RenderItem.subheader "Most Common Fire Incident Categories",
     RenderItem.barChart (bar_chart_data df_filtered),
     RenderItem.subheader "Fire Incidents Over Time",
     RenderItem.lineChart (line_chart_data df_filtered),
     RenderItem.subheader "Top Streets with Most Incidents"] ++
    match secrets.google_maps_api_key with
    | none =>
      [RenderItem.errorMsg
        "❌ Google Maps API Key not found in secrets! Make sure [google_maps].api_key is set."]
    | some _ =>
      [RenderItem.subheader "Incident Locations on Map",
       RenderItem.foliumMap (city_map (df_top_streets_final gmaps df_filtered)),
       RenderItem.subheader "Looker Studio Visualizations"] ++
      (looker_reports.map fun p =>
        [RenderItem.markdown ("### " ++ p.1), RenderItem.iframe p.2 800 600]).flatten

/-- Recognises a bar-chart render item. -/
def isBarChart : RenderItem → Bool
  | RenderItem.barChart _ => true
  | _ => false

/-- Recognises a map render item. -/
def isFoliumMap : RenderItem → Bool
  | RenderItem.foliumMap _ => true
  | _ => false

/-- Recognises an embedded-frame render item. -/
def isIframe : RenderItem → Bool
  | RenderItem.iframe _ _ _ => true
  | _ => false

/-- C2 counterexample: The claim "reports a user-visible error and
halts further execution for that session, rendering nothing downstream
(no partial rendering before the halt)" is false for the geocoding API
key: with a valid service account, a missing Maps API key and a
one-row table, the session renders the title and both charts before
the key check halts it — the error message is the last item rendered,
but the page is not just the error. -/
theorem claim_C2_counterexample :
    (runApp ⟨Except.ok (), none⟩ [⟨"Fire", "2024-01", "First St"⟩] ["Fire"] ["2024-01"]
        geoAlways).any isBarChart = true ∧
    (runApp ⟨Except.ok (), none⟩ [⟨"Fire", "2024-01", "First St"⟩] ["Fire"] ["2024-01"]
        geoAlways).getLast? =
      some (RenderItem.errorMsg
        "❌ Google Maps API Key not found in secrets! Make sure [google_maps].api_key is set.") ∧
    runApp ⟨Except.ok (), none⟩ [⟨"Fire", "2024-01", "First St"⟩] ["Fire"] ["2024-01"] geoAlways ≠
      [RenderItem.errorMsg
        "❌ Google Maps API Key not found in secrets! Make sure [google_maps].api_key is set."] := by
  refine ⟨rfl, rfl, ?_⟩
  decide

/-- C2 amended: If the service-account descriptor is absent or
invalid, the program reports a user-visible error and halts with
nothing else rendered for the session.  If the service account loads
but the geocoding API key is absent, the program reports a
user-visible error as the last item rendered and renders nothing
downstream of it — in particular no map and no embedded report frame —
but the sidebar, title, both charts and the top-streets subheader have
already been rendered before that halt. -/
theorem claim_C2_credential_halt (s : Secrets) (w : List Row)
    (cf mf : List String) (g : Geocoder) :
    (∀ e, s.gcp_service_account = Except.error e →
      runApp s w cf mf g =
        [RenderItem.errorMsg ("❌ Error loading Google Cloud credentials: " ++ e)]) ∧
    (s.gcp_service_account = Except.ok () → s.google_maps_api_key = none →
      (runApp s w cf mf g).getLast? =
        some (RenderItem.errorMsg
          "❌ Google Maps API Key not found in secrets! Make sure [google_maps].api_key is set.") ∧
      (runApp s w cf mf g).any isBarChart = true ∧
      (runApp s w cf mf g).all (fun i => !(isFoliumMap i || isIframe i)) = true) := by
  obtain ⟨acc, key⟩ := s
  constructor
  · intro e he
    simp only at he
    subst he
    rfl
  · intro hok hkey
    simp only at hok hkey
    subst hok
    subst hkey
    refine ⟨?_, ?_, ?_⟩ <;>
      simp [runApp, isBarChart, isFoliumMap, isIframe]

theorem claim_C2_credential_halt_witness :
    runApp ⟨Except.error "bad json", some "KEY"⟩ [] [] [] geoAlways =
      [RenderItem.errorMsg "❌ Error loading Google Cloud credentials: bad json"] ∧
    ((runApp ⟨Except.ok (), none⟩ [⟨"Fire", "2024-01", "First St"⟩] ["Fire"] ["2024-01"]
          geoAlways).getLast? =
        some (RenderItem.errorMsg
          "❌ Google Maps API Key not found in secrets! Make sure [google_maps].api_key is set.") ∧
      (runApp ⟨Except.ok (), none⟩ [⟨"Fire", "2024-01", "First St"⟩] ["Fire"] ["2024-01"]
          geoAlways).any isBarChart = true ∧
      (runApp ⟨Except.ok (), none⟩ [⟨"Fire", "2024-01", "First St"⟩] ["Fire"] ["2024-01"]
          geoAlways).all (fun i => !(isFoliumMap i || isIframe i)) = true) :=
  ⟨(claim_C2_credential_halt ⟨Except.error "bad json", some "KEY"⟩ [] [] [] geoAlways).1
      "bad json" rfl,
   (claim_C2_credential_halt ⟨Except.ok (), none⟩ [⟨"Fire", "2024-01", "First St"⟩]
      ["Fire"] ["2024-01"] geoAlways).2 rfl rfl⟩
